import Mathlib

/-!
Verification development for the TimeSformer example notebook
(`src/example.ipynb`).

The notebook constructs a pretrained TimeSformer video classifier,
runs one forward pass on a synthetic clip batch and asserts the output
shape, and contains two disconnected scratch cells (a tensor
flatten/reshape comparison and a numpy/matplotlib plotting demo).

Tensors are embedded shallowly as a shape (list of dimension sizes)
together with a flat, row-major element list.  Element values of torch
tensors are modelled as integers: none of the notebook's checks depend
on floating-point specifics, only on shapes and on element-wise
equality of identical underlying data.  The numpy cell uses rationals
because `np.linspace` divides.
-/

namespace TimeSformerNB

/-- A torch tensor: a shape together with its elements in row-major
(contiguous) order. -/
structure Tensor where
  shape : List Nat
  data : List Int
deriving Repr, DecidableEq

/-- Number of elements a tensor's shape describes (`numel`). -/
def Tensor.size (t : Tensor) : Nat := t.shape.prod

/-- Well-formedness: the flat data holds exactly as many elements as the
shape describes. -/
def Tensor.wf (t : Tensor) : Prop := t.data.length = t.shape.prod

instance (t : Tensor) : Decidable t.wf := by
  unfold Tensor.wf; infer_instance

/-- Semantics of `foo.view(rows, -1)` on a contiguous tensor: succeeds
when `rows` is positive and divides the element count, and then yields a
two-dimensional tensor with the same underlying data. -/
def Tensor.view2 (t : Tensor) (rows : Nat) : Option Tensor :=
  if 0 < rows ∧ rows * (t.size / rows) = t.size then
    some { shape := [rows, t.size / rows], data := t.data }
  else none

/-- Semantics of `torch.reshape(foo, (rows, -1))` on a contiguous
tensor: succeeds when `rows` is positive and divides the element count,
and then yields a two-dimensional tensor with the same underlying data
(for a contiguous input, `reshape` returns a view). -/
def torchReshape2 (t : Tensor) (rows : Nat) : Option Tensor :=
  if 0 < rows ∧ t.size % rows = 0 then
    some { shape := [rows, t.size / rows], data := t.data }
  else none

/-- Semantics of `torch.flatten(t, startDim)`: all dimensions from
`startDim` onwards are collapsed into one; the data is unchanged. -/
def torchFlatten (t : Tensor) (startDim : Nat) : Tensor :=
  { shape := t.shape.take startDim ++ [(t.shape.drop startDim).prod]
    data := t.data }

/-- Semantics of `torch.sum(a == b)` for same-shaped tensors: the number
of positions at which the two tensors hold equal elements. -/
def countEqual (a b : Tensor) : Nat :=
  (List.zipWith (fun x y => if x = y then (1 : Nat) else 0) a.data b.data).sum

/-- The flatten/reshape scratch cell of the notebook, parametrised by
the random data of `foo = torch.randn(80, 4, 3, 11, 11)`.  The cell
binds `foo_f1 = foo.view(T*B, -1)`, binds `foo_f2 = torch.flatten(foo, 2)`
and immediately rebinds `foo_f2 = torch.reshape(foo, (T*B, -1))`, then
evaluates `torch.sum(foo_f1 == foo_f2)`. -/
structure FlattenCellResult where
  foo : Tensor
  foo_f2_initial : Tensor
  foo_f1 : Option Tensor
  foo_f2 : Option Tensor
  eqSum : Option Nat
deriving Repr

def flattenCell (data : List Int) : FlattenCellResult :=
  let foo : Tensor := { shape := [80, 4, 3, 11, 11], data := data }
  let f1 := foo.view2 (80 * 4)
  let f2init := torchFlatten foo 2
  let f2 := torchReshape2 foo (80 * 4)
  { foo := foo
    foo_f2_initial := f2init
    foo_f1 := f1
    foo_f2 := f2
    eqSum := f1.bind fun a => f2.map fun b => countEqual a b }

/-- Counting equal positions between a tensor and itself (same data
list) gives the length of the data. -/
theorem countEqual_same_data (a b : Tensor) (h : a.data = b.data) :
    countEqual a b = a.data.length := by
  unfold countEqual
  rw [← h]
  induction a.data with
  | nil => simp
  | cons x xs ih => simp [ih]; omega

theorem view2_eq_reshape2 (t : Tensor) (rows : Nat) :
    t.view2 rows = torchReshape2 t rows := by
  unfold Tensor.view2 torchReshape2
  rcases Nat.eq_zero_or_pos rows with hr | hr
  · subst hr; simp
  · have hdvd : rows * (t.size / rows) = t.size ↔ t.size % rows = 0 := by
      constructor
      · intro h
        have := Nat.div_add_mod t.size rows
        omega
      · intro h
        exact Nat.mul_div_cancel' (Nat.dvd_of_mod_eq_zero h)
    simp [hr, hdvd]

theorem flattenCell_foo_f1 (data : List Int) :
    (flattenCell data).foo_f1 =
      some { shape := [320, 363], data := data } := by
  simp only [flattenCell, Tensor.view2, Tensor.size]
  norm_num

theorem flattenCell_foo_f2 (data : List Int) :
    (flattenCell data).foo_f2 =
      some { shape := [320, 363], data := data } := by
  simp only [flattenCell, torchReshape2, Tensor.size]
  norm_num

theorem flattenCell_eqSum (data : List Int) :
    (flattenCell data).eqSum = some data.length := by
  have he : (flattenCell data).eqSum =
      ((flattenCell data).foo_f1).bind fun a =>
        ((flattenCell data).foo_f2).map fun b => countEqual a b := rfl
  rw [he, flattenCell_foo_f1, flattenCell_foo_f2]
  exact congrArg some (countEqual_same_data _ _ rfl)

/-- C7: for every tensor of shape `(T,B,C,H,W)` with `T*B > 0`, the two
flattening routes `foo.view(T*B, -1)` and `torch.reshape(foo, (T*B, -1))`
succeed, produce element-wise identical tensors of shape
`(T*B, C*H*W)`, and the count of equal elements is `T*B*C*H*W`.
Amended from the claim: at `T,B,C,H,W = 80,4,3,11,11` this count is
`116160`, not `10560` as the claim's parenthetical asserts. -/
theorem view_reshape_equal_count
    (T B C H W : Nat) (t : Tensor)
    (hshape : t.shape = [T, B, C, H, W]) (hwf : t.wf) (hTB : 0 < T * B) :
    ∃ f1 f2, t.view2 (T * B) = some f1 ∧ torchReshape2 t (T * B) = some f2 ∧
      f1 = f2 ∧ f1.shape = [T * B, C * H * W] ∧
      countEqual f1 f2 = T * B * C * H * W := by
  have hsize : t.size = T * B * (C * H * W) := by
    simp [Tensor.size, hshape]; ring
  have hdiv : t.size / (T * B) = C * H * W := by
    rw [hsize]
    exact Nat.mul_div_cancel_left _ hTB
  have hguard : T * B * (t.size / (T * B)) = t.size := by
    rw [hdiv, hsize]
  refine ⟨{ shape := [T * B, C * H * W], data := t.data },
          { shape := [T * B, C * H * W], data := t.data }, ?_, ?_, rfl, rfl, ?_⟩
  · simp [Tensor.view2, hTB, hguard, hdiv, hsize]
  · have hmod : t.size % (T * B) = 0 := by
      have := Nat.div_add_mod t.size (T * B)
      omega
    simp [torchReshape2, hTB, hmod, hdiv, hsize]
  · have : countEqual { shape := [T * B, C * H * W], data := t.data }
        { shape := [T * B, C * H * W], data := t.data } = t.data.length :=
      countEqual_same_data _ _ rfl
    rw [this, hwf, hshape]
    simp; ring

/-- C7 witness: the amended count at the cell's concrete dimensions. -/
theorem view_reshape_equal_count_witness :
    ∃ f1 f2,
      (Tensor.mk [80, 4, 3, 11, 11] (List.replicate 116160 0)).view2 (80 * 4)
        = some f1 ∧
      torchReshape2 (Tensor.mk [80, 4, 3, 11, 11] (List.replicate 116160 0))
        (80 * 4) = some f2 ∧
      f1 = f2 ∧ f1.shape = [80 * 4, 3 * 11 * 11] ∧
      countEqual f1 f2 = 80 * 4 * 3 * 11 * 11 :=
  view_reshape_equal_count 80 4 3 11 11
    (Tensor.mk [80, 4, 3, 11, 11] (List.replicate 116160 0)) rfl
    (by unfold Tensor.wf; rw [List.length_replicate]; norm_num) (by norm_num)

/-- C7 counterexample: in the flatten cell at `T,B,C,H,W = 80,4,3,11,11`,
the sum `torch.sum(foo_f1 == foo_f2)` is `116160 = 80*4*3*11*11`, which
refutes the claim's asserted value `10560`. -/
theorem flattenCell_count_not_10560 :
    (flattenCell (List.replicate 116160 0)).eqSum = some 116160 ∧
      (flattenCell (List.replicate 116160 0)).eqSum ≠ some 10560 := by
  have h := flattenCell_eqSum (List.replicate 116160 0)
  rw [List.length_replicate] at h
  refine ⟨h, ?_⟩
  rw [h]
  intro hc
  exact absurd (Option.some.inj hc) (by norm_num)

/-- C9: in the flatten cell, `torch.flatten(foo, 2)` has shape
`(80, 4, 363)`, not `(320, 363)`; the binding `foo_f2` is overwritten
by `torch.reshape(foo, (320, -1))` before the comparison, and the
tensors actually compared, `foo.view(320, -1)` and
`torch.reshape(foo, (320, -1))`, both have shape `(320, 363)`. -/
theorem flattenCell_overwrite (data : List Int)
    (hwf : data.length = 116160) :
    (flattenCell data).foo_f2_initial.shape = [80, 4, 363] ∧
    (flattenCell data).foo_f2_initial.shape ≠ [320, 363] ∧
    (flattenCell data).foo_f1 = ((flattenCell data).foo).view2 320 ∧
    (flattenCell data).foo_f2 = torchReshape2 ((flattenCell data).foo) 320 ∧
    ∃ a b, (flattenCell data).foo_f1 = some a ∧
      (flattenCell data).foo_f2 = some b ∧
      a.shape = [320, 363] ∧ b.shape = [320, 363] := by
  refine ⟨?_, by simp [flattenCell, torchFlatten], ?_, ?_, ?_⟩
  · simp [flattenCell, torchFlatten]
  · simp [flattenCell]
  · simp [flattenCell]
  · exact ⟨_, _, flattenCell_foo_f1 data, flattenCell_foo_f2 data, rfl, rfl⟩

/-- C9 witness: the flatten cell's shapes at a concrete data list. -/
theorem flattenCell_overwrite_witness :
    (flattenCell (List.replicate 116160 0)).foo_f2_initial.shape
        = [80, 4, 363] ∧
    (flattenCell (List.replicate 116160 0)).foo_f2_initial.shape
        ≠ [320, 363] ∧
    (flattenCell (List.replicate 116160 0)).foo_f1 =
      ((flattenCell (List.replicate 116160 0)).foo).view2 320 ∧
    (flattenCell (List.replicate 116160 0)).foo_f2 =
      torchReshape2 ((flattenCell (List.replicate 116160 0)).foo) 320 ∧
    ∃ a b, (flattenCell (List.replicate 116160 0)).foo_f1 = some a ∧
      (flattenCell (List.replicate 116160 0)).foo_f2 = some b ∧
      a.shape = [320, 363] ∧ b.shape = [320, 363] :=
  flattenCell_overwrite (List.replicate 116160 0) (by rw [List.length_replicate])

/-- Configuration passed to the `TimeSformer` constructor in the
notebook: `TimeSformer(img_size=224, num_classes=600, num_frames=8,
attention_type='divided_space_time', pretrained_model=model_file)`. -/
structure ModelConfig where
  img_size : Nat
  num_classes : Nat
  num_frames : Nat
  attention_type : String
  pretrained_model : String
deriving Repr, DecidableEq

/-- The concrete configuration used by the notebook's construction cell. -/
def exampleConfig : ModelConfig :=
  { img_size := 224
    num_classes := 600
    num_frames := 8
    attention_type := "divided_space_time"
    pretrained_model := "TimeSformer_divST_8x32_224_K600.pyth" }

/-- Modelled from the spec: a serialized pretrained-weights artifact
(the `TimeSformer` loader itself is not under `src/`): a bundle of
parameter shapes and the flat learned parameter values. -/
structure WeightsArtifact where
  paramShapes : List (List Nat)
  params : List Int
deriving Repr, DecidableEq

/-- Modelled from the spec: the parameter shapes of "the architecture
implied by the configuration" (the model code is not under `src/`):
patch embedding from the spatial size, positional and temporal
embeddings from the patch grid and the frame count, classification head
from the class count; the attention factorization strategy selects the
layer layout. -/
def archShapes (c : ModelConfig) : List (List Nat) :=
  [[768, 3, 16, 16],
   [(c.img_size / 16) * (c.img_size / 16) + 1, 768],
   [c.num_frames, 768],
   [if c.attention_type = "divided_space_time" then 2 else 1],
   [c.num_classes, 768],
   [c.num_classes]]

/-- Errors of the construction step, per the spec's error taxonomy. -/
inductive ConstructError where
  | resourceNotFound
  | shapeMismatch
deriving Repr, DecidableEq

/-- A constructed model instance: its configuration and its loaded
parameters. -/
structure Model where
  config : ModelConfig
  params : List Int
deriving Repr, DecidableEq

/-- Modelled from the spec: the filesystem seen by the loader is a
partial map from paths to weights artifacts; a path mapped to `none`
does not exist. -/
def FileSystem : Type := String → Option WeightsArtifact

/-- Modelled from the spec: `construct(config)` (the `TimeSformer`
constructor, whose code is not under `src/`) deserializes the weights
artifact at the configured path into a new model instance; it fails
with a resource-not-found error when the path does not exist, fails
with a shape/structure-mismatch error when the artifact's parameter
shapes do not match the architecture implied by the configuration, and
the load is all-or-nothing with no retry. -/
def construct (fs : FileSystem) (c : ModelConfig) :
    Except ConstructError Model :=
  match fs c.pretrained_model with
  | none => Except.error ConstructError.resourceNotFound
  | some art =>
      if art.paramShapes = archShapes c then
        Except.ok { config := c, params := art.params }
      else Except.error ConstructError.shapeMismatch

/-- Modelled from the spec: `infer(model, clip_batch)` (the forward
pass of `model(dummy_video)`, whose code is not under `src/`) is a
single deterministic forward evaluation, a pure function of the model
parameters and the input, producing one score per (clip, class) pair;
the output's leading axis is the input's batch axis and its second
axis has the configured number of classes. -/
def infer (m : Model) (clip : Tensor) : Tensor :=
  { shape := [clip.shape.headI, m.config.num_classes]
    data := (List.range (clip.shape.headI * m.config.num_classes)).map
      (fun i => m.params.sum * clip.data.sum + Int.ofNat i) }

/-- Modelled from the spec: the state-passing view of one inference
call: it returns the model state after the call together with the
predictions; inference mode performs no parameter update and has no
side effect, so the model state passes through unchanged. -/
def inferCall (m : Model) (clip : Tensor) : Model × Tensor :=
  (m, infer m clip)

/-- Result of the notebook's `assert pred.shape == (2,600)` cell. -/
inductive AssertResult where
  | passed
  | assertionError
deriving Repr, DecidableEq

/-- Semantics of the notebook's `assert pred.shape == (2,600)`: it
raises an assertion error exactly when the shape comparison is false,
and otherwise lets execution continue. -/
def shapeAssertCell (pred : Tensor) : AssertResult :=
  if pred.shape = [2, 600] then AssertResult.passed
  else AssertResult.assertionError

/-- An artifact whose parameter shapes match the example
configuration, used as the concrete "matching pretrained-weights
artifact". -/
def exampleArtifact : WeightsArtifact :=
  { paramShapes := archShapes exampleConfig, params := [7, -3, 5] }

/-- A concrete filesystem holding the matching artifact at the
notebook's weights path and nothing else. -/
def exampleFS : FileSystem :=
  fun p => if p = exampleConfig.pretrained_model then some exampleArtifact
           else none

/-- A concrete model instance as constructed by the notebook cell. -/
def exampleModel : Model :=
  { config := exampleConfig, params := [7, -3, 5] }

theorem construct_ok_config (fs : FileSystem) (c : ModelConfig) (m : Model)
    (hok : construct fs c = Except.ok m) :
    m.config = c ∧ ∃ art, fs c.pretrained_model = some art ∧
      art.paramShapes = archShapes c ∧ m.params = art.params := by
  unfold construct at hok
  cases hfs : fs c.pretrained_model with
  | none => rw [hfs] at hok; simp at hok
  | some art =>
      rw [hfs] at hok
      by_cases hsh : art.paramShapes = archShapes c
      · simp [hsh] at hok
        exact ⟨by rw [← hok], art, rfl, hsh, by rw [← hok]⟩
      · simp [hsh] at hok

theorem infer_shape_example_aux (fs : FileSystem) (m : Model) (clip : Tensor)
    (hok : construct fs exampleConfig = Except.ok m)
    (hclip : clip.shape = [2, 3, 8, 224, 224]) :
    (infer m clip).shape = [2, 600] := by
  obtain ⟨hc, -⟩ := construct_ok_config fs exampleConfig m hok
  simp [infer, hclip, hc, exampleConfig]

/-- C1: for a model constructed with image size 224, 600 classes,
8 frames, attention type divided_space_time and a matching
pretrained-weights artifact, inference on a well-formed batch of 2
clips of shape `(2,3,8,224,224)` produces predictions of shape
`(2,600)`. -/
theorem example_inference_shape (fs : FileSystem) (m : Model) (clip : Tensor)
    (hok : construct fs exampleConfig = Except.ok m)
    (hclip : clip.shape = [2, 3, 8, 224, 224]) (hwf : clip.wf) :
    (infer m clip).shape = [2, 600] :=
  infer_shape_example_aux fs m clip hok hclip

/-- C1 witness: the construction succeeds on a filesystem holding the
matching artifact, and the concrete synthetic clip batch yields a
`(2,600)` prediction shape. -/
theorem example_inference_shape_witness :
    construct exampleFS exampleConfig = Except.ok exampleModel ∧
    (Tensor.mk [2, 3, 8, 224, 224] (List.replicate 2408448 0)).shape
      = [2, 3, 8, 224, 224] ∧
    (Tensor.mk [2, 3, 8, 224, 224] (List.replicate 2408448 0)).wf ∧
    (infer exampleModel
      (Tensor.mk [2, 3, 8, 224, 224] (List.replicate 2408448 0))).shape
      = [2, 600] := by
  have hok : construct exampleFS exampleConfig = Except.ok exampleModel := rfl
  have hwf : (Tensor.mk [2, 3, 8, 224, 224]
      (List.replicate 2408448 (0 : Int))).wf := by
    unfold Tensor.wf
    rw [List.length_replicate]
    norm_num
  exact ⟨hok, rfl, hwf,
    example_inference_shape exampleFS exampleModel _ hok rfl hwf⟩

/-- C2: for every well-formed clip batch whose channel, time, height
and width axes match the model's configuration and every positive
batch size, inference returns a 2-dimensional tensor of shape
`(batch, num_classes)`; two different clip batches of the same shape
both yield that output shape. -/
theorem infer_shape_matches_batch (m : Model) (b : Nat) (hb : 0 < b)
    (c1 c2 : Tensor)
    (h1 : c1.shape =
      [b, 3, m.config.num_frames, m.config.img_size, m.config.img_size])
    (h2 : c2.shape =
      [b, 3, m.config.num_frames, m.config.img_size, m.config.img_size])
    (hw1 : c1.wf) (hw2 : c2.wf) :
    (infer m c1).shape = [b, m.config.num_classes] ∧
    (infer m c2).shape = [b, m.config.num_classes] ∧
    (infer m c1).shape.length = 2 := by
  refine ⟨?_, ?_, ?_⟩ <;> simp [infer, h1, h2]

/-- C2 witness: batch sizes 1 and 2 on the example model, each with
two different concrete clip batches of the matching shape, all
produce `(batch, 600)` predictions. -/
theorem infer_shape_matches_batch_witness :
    ((infer exampleModel
        (Tensor.mk [1, 3, 8, 224, 224] (List.replicate 1204224 0))).shape
      = [1, 600] ∧
     (infer exampleModel
        (Tensor.mk [1, 3, 8, 224, 224] (List.replicate 1204224 1))).shape
      = [1, 600] ∧
     (infer exampleModel
        (Tensor.mk [1, 3, 8, 224, 224] (List.replicate 1204224 0))).shape.length
      = 2) ∧
    ((infer exampleModel
        (Tensor.mk [2, 3, 8, 224, 224] (List.replicate 2408448 0))).shape
      = [2, 600] ∧
     (infer exampleModel
        (Tensor.mk [2, 3, 8, 224, 224] (List.replicate 2408448 1))).shape
      = [2, 600] ∧
     (infer exampleModel
        (Tensor.mk [2, 3, 8, 224, 224] (List.replicate 2408448 0))).shape.length
      = 2) := by
  have hw1 : (Tensor.mk [1, 3, 8, 224, 224]
      (List.replicate 1204224 (0 : Int))).wf := by
    unfold Tensor.wf; rw [List.length_replicate]; norm_num
  have hw2 : (Tensor.mk [1, 3, 8, 224, 224]
      (List.replicate 1204224 (1 : Int))).wf := by
    unfold Tensor.wf; rw [List.length_replicate]; norm_num
  have hw3 : (Tensor.mk [2, 3, 8, 224, 224]
      (List.replicate 2408448 (0 : Int))).wf := by
    unfold Tensor.wf; rw [List.length_replicate]; norm_num
  have hw4 : (Tensor.mk [2, 3, 8, 224, 224]
      (List.replicate 2408448 (1 : Int))).wf := by
    unfold Tensor.wf; rw [List.length_replicate]; norm_num
  exact ⟨infer_shape_matches_batch exampleModel 1 (by norm_num) _ _
           rfl rfl hw1 hw2,
         infer_shape_matches_batch exampleModel 2 (by norm_num) _ _
           rfl rfl hw3 hw4⟩

/-- C3: calling infer twice with the same input on the same
constructed model yields identical results: the second call, made on
the model state returned by the first, returns exactly the first
call's result. -/
theorem inferCall_deterministic (m : Model) (clip : Tensor) :
    inferCall ((inferCall m clip).1) clip = inferCall m clip := rfl

/-- C4: inference mutates no state: the model state returned by a
call is the input model itself, every parameter and the configuration
included, and the call's whole effect is the returned pair. -/
theorem inferCall_no_mutation (m : Model) (clip : Tensor) :
    (inferCall m clip).1 = m ∧
    (inferCall m clip).1.params = m.params ∧
    (inferCall m clip).1.config = m.config ∧
    (inferCall m clip).2 = infer m clip :=
  ⟨rfl, rfl, rfl, rfl⟩

/-- C5: construction with a pretrained-weights path that does not
exist on the filesystem fails with a resource-not-found error and
never produces a model. -/
theorem construct_missing_weights (fs : FileSystem) (c : ModelConfig)
    (h : fs c.pretrained_model = none) :
    construct fs c = Except.error ConstructError.resourceNotFound ∧
    ∀ m, construct fs c ≠ Except.ok m := by
  have he : construct fs c = Except.error ConstructError.resourceNotFound := by
    unfold construct
    rw [h]
  exact ⟨he, fun m hm => by rw [he] at hm; cases hm⟩

/-- C5 witness: on an empty filesystem the notebook's configuration
fails to construct with a resource-not-found error. -/
theorem construct_missing_weights_witness :
    construct (fun _ => none) exampleConfig
      = Except.error ConstructError.resourceNotFound ∧
    ∀ m, construct (fun _ => none) exampleConfig ≠ Except.ok m :=
  construct_missing_weights (fun _ => none) exampleConfig rfl

/-- C6: construction from an artifact whose parameter shapes do not
match the architecture implied by the configuration fails with a
shape-mismatch error, and the load is atomic: a success carries the
artifact's full parameters under the requested configuration, and a
failure produces no model at all. -/
theorem construct_mismatch_atomic (fs : FileSystem) (c : ModelConfig)
    (art : WeightsArtifact) (hfs : fs c.pretrained_model = some art) :
    (art.paramShapes ≠ archShapes c →
      construct fs c = Except.error ConstructError.shapeMismatch ∧
      ∀ m, construct fs c ≠ Except.ok m) ∧
    (∀ m, construct fs c = Except.ok m →
      m.config = c ∧ m.params = art.params ∧
      art.paramShapes = archShapes c) := by
  constructor
  · intro hne
    have he : construct fs c = Except.error ConstructError.shapeMismatch := by
      unfold construct
      rw [hfs]
      simp [hne]
    exact ⟨he, fun m hm => by rw [he] at hm; cases hm⟩
  · intro m hm
    obtain ⟨hc, art2, hfs2, hsh, hp⟩ := construct_ok_config fs c m hm
    rw [hfs] at hfs2
    have ha : art = art2 := Option.some.inj hfs2
    exact ⟨hc, by rw [hp, ← ha], by rw [← ha] at hsh; exact hsh⟩

/-- C6 witness: an artifact with empty parameter shapes at the
configured path makes construction fail with a shape-mismatch error. -/
theorem construct_mismatch_atomic_witness :
    construct
      (fun p => if p = exampleConfig.pretrained_model
                then some (WeightsArtifact.mk [] []) else none)
      exampleConfig
      = Except.error ConstructError.shapeMismatch :=
  ((construct_mismatch_atomic _ exampleConfig (WeightsArtifact.mk [] [])
      (by simp)).1 (by simp [archShapes])).1

/-- C8: the output-shape assertion raises exactly when the prediction
shape differs from `(2,600)`, and for predictions produced by the
constructed example model on the specified input the error branch is
unreachable. -/
theorem shape_assert_guard (fs : FileSystem) (m : Model) (clip : Tensor)
    (hok : construct fs exampleConfig = Except.ok m)
    (hclip : clip.shape = [2, 3, 8, 224, 224]) (hwf : clip.wf) :
    (∀ p, shapeAssertCell p = AssertResult.assertionError ↔
      p.shape ≠ [2, 600]) ∧
    shapeAssertCell (infer m clip) = AssertResult.passed := by
  constructor
  · intro p
    unfold shapeAssertCell
    by_cases hp : p.shape = [2, 600] <;> simp [hp]
  · unfold shapeAssertCell
    rw [if_pos (infer_shape_example_aux fs m clip hok hclip)]

/-- C8 witness: the assertion passes on the example model's output
for the concrete synthetic clip batch. -/
theorem shape_assert_guard_witness :
    (∀ p, shapeAssertCell p = AssertResult.assertionError ↔
      p.shape ≠ [2, 600]) ∧
    shapeAssertCell (infer exampleModel
      (Tensor.mk [2, 3, 8, 224, 224] (List.replicate 2408448 0)))
      = AssertResult.passed := by
  have hok : construct exampleFS exampleConfig = Except.ok exampleModel := rfl
  have hwf : (Tensor.mk [2, 3, 8, 224, 224]
      (List.replicate 2408448 (0 : Int))).wf := by
    unfold Tensor.wf
    rw [List.length_replicate]
    norm_num
  exact shape_assert_guard exampleFS exampleModel _ hok rfl hwf

/-- Semantics of `np.linspace(start, stop, num)` with the default
inclusive endpoint, over exact rationals: `num` evenly spaced values
from `start` to `stop`. -/
def npLinspace (start stop : ℚ) (num : Nat) : List ℚ :=
  if num ≤ 1 then List.replicate num start
  else (List.range num).map
    (fun (i : Nat) => start + (stop - start) * (i : ℚ) / ((num : ℚ) - 1))

/-- Semantics of `np.tile(m, (reps, 1))` for a matrix held as a list
of rows: the whole block of rows is stacked `reps` times. -/
def npTile (m : List (List ℚ)) (reps : Nat) : List (List ℚ) :=
  (List.replicate reps m).flatten

/-- The plotting scratch cell's `foo`:
`np.linspace(0, 250, num=divs).reshape(1, divs)`, a one-row matrix.
The cell depends on no earlier binding: `divs` is its only input. -/
def plotFoo (divs : Nat) : List (List ℚ) := [npLinspace 0 250 divs]

/-- The plotting scratch cell's `foo_big`: `np.tile(foo, (divs, 1))`. -/
def plotFooBig (divs : Nat) : List (List ℚ) := npTile (plotFoo divs) divs

/-- C10: with `divs = 12` the plotting cell's `foo` has shape
`(1, 12)`, `foo_big` has shape `(12, 12)`, and every row of `foo_big`
equals the single row of `foo`; both values are functions of the
constant `divs` alone. -/
theorem plot_cell_shapes :
    (plotFoo 12).length = 1 ∧
    (∀ r ∈ plotFoo 12, r.length = 12) ∧
    (plotFooBig 12).length = 12 ∧
    (∀ r ∈ plotFooBig 12, r.length = 12) ∧
    (∀ r ∈ plotFooBig 12, r = npLinspace 0 250 12) := by
  have hlen : (npLinspace 0 250 12).length = 12 := by
    unfold npLinspace
    rw [if_neg (by norm_num)]
    rw [List.length_map, List.length_range]
  have hbig : plotFooBig 12 = List.replicate 12 (npLinspace 0 250 12) := by
    unfold plotFooBig npTile plotFoo
    rfl
  refine ⟨rfl, ?_, ?_, ?_, ?_⟩
  · intro r hr
    rw [List.mem_singleton.mp hr]
    exact hlen
  · rw [hbig, List.length_replicate]
  · intro r hr
    rw [hbig] at hr
    rw [List.eq_of_mem_replicate hr]
    exact hlen
  · intro r hr
    rw [hbig] at hr
    exact List.eq_of_mem_replicate hr

end TimeSformerNB
